import Mathlib

/-!
Verification of the Unified Realtime Audio Session layer of
`realtime-voice-comparison` against its natural-language specification.

The definitions below are a shallow embedding, translated directly from the
TypeScript sources:
  * `src/lib/gemini-client.ts` — `GeminiClient` and `OpenAIRealtimeClient`
    (connect / disconnect / send paths, inbound message handling, and the
    byte-level base64 helpers `arrayBufferToBase64` / `base64ToArrayBuffer`);
  * `src/lib/audio-utils.ts` — `AudioStreamer` (playback queue);
  * `App.tsx` — the Gemini recording path (`startRecording` / `stopRecording`
    with the 100 ms batching interval) and the `interrupted → stop` wiring.

Machine characters and bytes are modelled as `Nat` (byte values < 256,
base64 sextets < 64); strings as `List Char`; buffers as `List Nat`.
-/

namespace RVC

/-! ## Base64 codec (model of the browser builtins `btoa` / `atob`)

`arrayBufferToBase64` turns each byte into the latin-1 character of the same
code (`String.fromCharCode`) and applies `btoa`; `base64ToArrayBuffer` applies
`atob` and reads each character's code back (`charCodeAt`).  Since the
character-code conversion is the identity on byte values, both repository
functions are faithfully modelled at the byte level: `btoaBytes` is the
standard base64 encoding of a byte list, `atobBytes` the standard decoding. -/

/-- The standard base64 alphabet. -/
def b64Alphabet : List Char :=
  "ABCDEFGHIJKLMNOPQRSTUVWXYZabcdefghijklmnopqrstuvwxyz0123456789+/".toList

/-- Character of a sextet value. -/
def b64Char (n : Nat) : Char := b64Alphabet.getD n 'A'

/-- Sextet value of an alphabet character. -/
def b64Index (c : Char) : Nat := b64Alphabet.indexOf c

/-- Model of `btoa` on a latin-1 string whose character codes are the given
bytes: 3 bytes become 4 sextet characters; a 1- or 2-byte tail is padded
with `=`. -/
def btoaBytes : List Nat → List Char
  | [] => []
  | [a] => [b64Char (a / 4), b64Char (a % 4 * 16), '=', '=']
  | [a, b] => [b64Char (a / 4), b64Char (a % 4 * 16 + b / 16), b64Char (b % 16 * 4), '=']
  | a :: b :: c :: rest =>
      b64Char (a / 4) :: b64Char (a % 4 * 16 + b / 16) ::
        b64Char (b % 16 * 4 + c / 64) :: b64Char (c % 64) :: btoaBytes rest

/-- Reassemble bytes from sextet values (padding already stripped):
4 sextets give 3 bytes, a 2- or 3-sextet tail gives 1 or 2 bytes. -/
def sextetsToBytes : List Nat → List Nat
  | [w, x] => [w * 4 + x / 16]
  | [w, x, y] => [w * 4 + x / 16, x % 16 * 16 + y / 4]
  | w :: x :: y :: z :: rest =>
      (w * 4 + x / 16) :: (x % 16 * 16 + y / 4) :: (y % 4 * 64 + z) :: sextetsToBytes rest
  | _ => []

/-- Model of `atob` followed by `charCodeAt` on every character: strip the
`=` padding, map characters to sextet values, reassemble bytes. -/
def atobBytes (s : List Char) : List Nat :=
  sextetsToBytes ((s.filter (fun c => c ≠ '=')).map b64Index)

/-! ## Shared protocol vocabulary -/

/-- Session status, `_status` in both clients. -/
inductive Status
  | disconnected
  | connecting
  | connected
deriving DecidableEq, Repr

/-- `ConnectionType` of `OpenAIRealtimeClient`. -/
inductive ConnType
  | webrtc
  | websocket
deriving DecidableEq, Repr

/-- Canonical events emitted by the adapters (the event surface of
`OpenAIRealtimeEventTypes` / `GeminiClientEventTypes`).  `log` is the
log-level diagnostic channel of `GeminiClient`. -/
inductive CEvent
  | openEv
  | closeEv
  | audioEv (bytes : List Nat)
  | contentEv (text : Option (List Char))
  | errorEv (msg : List Char)
  | interruptedEv
  | turncompleteEv
  | setupcompleteEv
  | logEv
deriving DecidableEq, Repr

/-- JavaScript `a || b` on optional strings: the empty string and `undefined`
are falsy. -/
def jsOr (a b : Option (List Char)) : Option (List Char) :=
  match a with
  | some s => if s = [] then b else some s
  | none => b

/-! ## `OpenAIRealtimeClient` (gemini-client.ts, lines 241–642)

State fields are the nullable resource handles (held ↔ `true`), the channel
`readyState` flags, and the `_status` field.  Messages actually handed to
`dc.send` / `ws.send` are accumulated in `dcSent` / `wsSent`. -/

/-- Outbound messages built by `OpenAIRealtimeClient` (the JSON payloads of
`this.send(...)` calls). -/
inductive OutMsg
  | sessionUpdate
  | inputAudioAppend (b64 : List Char)
  | conversationItemCreate (text : List Char)
  | responseCreate
deriving DecidableEq, Repr

structure OAIState where
  connectionType : ConnType
  status : Status
  pc : Bool
  dc : Bool
  ws : Bool
  audioElement : Bool
  dcOpen : Bool
  wsOpen : Bool
  initialConfigSet : Bool
  dcSent : List OutMsg
  wsSent : List OutMsg
deriving DecidableEq, Repr

/-- A freshly constructed `OpenAIRealtimeClient`. -/
def initOAI (ct : ConnType) : OAIState :=
  ⟨ct, Status.disconnected, false, false, false, false, false, false, false, [], []⟩

/-- `send(data)`: serialize and transmit over the data channel (WebRTC mode,
channel open) or the WebSocket (websocket mode, socket open); otherwise drop. -/
def sendOAI (s : OAIState) (m : OutMsg) : OAIState :=
  if s.connectionType = ConnType.webrtc ∧ s.dc ∧ s.dcOpen then
    { s with dcSent := s.dcSent ++ [m] }
  else if s.connectionType = ConnType.websocket ∧ s.ws ∧ s.wsOpen then
    { s with wsSent := s.wsSent ++ [m] }
  else s

/-- Outcomes of the network steps a WebRTC connect attempt suspends on:
the credential POST (`getEphemeralKey`), `getUserMedia`, and the SDP
exchange POST. -/
structure NetEnv where
  credsOk : Bool
  micOk : Bool
  sdpOk : Bool
deriving DecidableEq, Repr

/-- `connect(model, config)` in WebRTC mode (`connect` + `connectWebRTC`).
Returns (promise result, post state, canonical events emitted).

Translation notes, line by line from the source:
* lines 262–264: busy guard, returns `false` with no effect;
* `getEphemeralKey` never rejects — its own `catch` falls back to returning
  the raw API key, so `env.credsOk` does not influence control flow;
* `connectWebRTC` sets `initialConfig`, creates the peer connection, the
  audio element and the data channel; a `getUserMedia` failure is caught and
  only logged, so `env.micOk` does not influence control flow either;
* the SDP POST: on failure an exception is thrown, re-thrown by
  `connectWebRTC`, and caught by `connect`, which sets `_status` to
  `"disconnected"` and returns `false` — emitting no event and closing none
  of the resources created so far;
* on success `_status` becomes `"connected"` and `open` is emitted. -/
def connectOAI (env : NetEnv) (s : OAIState) : Bool × OAIState × List CEvent :=
  if s.status = Status.connected ∨ s.status = Status.connecting then
    (false, s, [])
  else
    match s.connectionType with
    | ConnType.webrtc =>
        let s2 : OAIState :=
          { s with status := Status.connecting, initialConfigSet := true,
                   pc := true, audioElement := true, dc := true }
        if env.sdpOk then
          (true, { s2 with status := Status.connected }, [CEvent.openEv])
        else
          (false, { s2 with status := Status.disconnected }, [])
    | ConnType.websocket =>
        let s2 : OAIState := { s with status := Status.connecting, ws := true }
        if env.sdpOk then
          (true,
           sendOAI { s2 with status := Status.connected, wsOpen := true }
             OutMsg.sessionUpdate,
           [CEvent.openEv])
        else
          (false, { s2 with status := Status.disconnected, wsOpen := false },
           [CEvent.errorEv "WebSocket error".toList])

/-- `disconnect()` (lines 617–641): closes and clears every resource handle,
forces `_status` to `"disconnected"`, and always returns `true`. -/
def disconnectOAI (s : OAIState) : Bool × OAIState :=
  (true,
   { s with pc := false, dc := false, ws := false, audioElement := false,
            dcOpen := false, wsOpen := false, status := Status.disconnected })

/-- `sendAudio(audioData)` (lines 571–584): in WebRTC mode, warn and return
(audio rides the media track); in websocket mode, base64-encode and send an
`input_audio_buffer.append` message when the socket is open. -/
def sendAudioOAI (s : OAIState) (bytes : List Nat) : OAIState :=
  match s.connectionType with
  | ConnType.webrtc => s
  | ConnType.websocket =>
      if s.ws ∧ s.wsOpen then
        sendOAI s (OutMsg.inputAudioAppend (btoaBytes bytes))
      else s

/-- `sendText(text)` (lines 586–605): a `conversation.item.create` carrying
the text, then a `response.create`. -/
def sendTextOAI (s : OAIState) (text : List Char) : OAIState :=
  sendOAI (sendOAI s (OutMsg.conversationItemCreate text)) OutMsg.responseCreate

/-- Inbound messages as discriminated by `handleMessage` (lines 512–551):
the `type` tag plus the payload fields each branch reads. -/
inductive InMsg
  | sessionCreated
  | sessionUpdated
  | audioDelta (delta : Option (List Char))
  | textDelta (text delta : Option (List Char))
  | textDone (text delta : Option (List Char))
  | responseDone
  | responseCancelled
  | errorMsg (emsg : Option (List Char))
  | otherMsg (tag : List Char)
deriving DecidableEq, Repr

/-- `handleMessage(message)`: canonical events emitted for one inbound
message.  `response.audio.delta` decodes its base64 payload and emits
`audio` only when the payload is truthy and the mode is websocket. -/
def handleMessageOAI (ct : ConnType) : InMsg → List CEvent
  | InMsg.sessionCreated => []
  | InMsg.sessionUpdated => []
  | InMsg.audioDelta delta =>
      match delta with
      | some d => if d ≠ [] ∧ ct = ConnType.websocket then [CEvent.audioEv (atobBytes d)] else []
      | none => []
  | InMsg.textDelta text delta => [CEvent.contentEv (jsOr text delta)]
  | InMsg.textDone text delta => [CEvent.contentEv (jsOr text delta)]
  | InMsg.responseDone => [CEvent.turncompleteEv]
  | InMsg.responseCancelled => [CEvent.interruptedEv]
  | InMsg.errorMsg emsg =>
      [CEvent.errorEv ((jsOr emsg (some "Unknown error".toList)).getD [])]
  | InMsg.otherMsg _ => []

/-! ## `GeminiClient` (gemini-client.ts, lines 16–221)

State is the `_status` field and whether `this.session` is non-null.
Messages passed to `session.sendClientContent` / `session.sendRealtimeInput`
are accumulated in `sent`. -/

/-- Messages handed to the Gemini `Session` object. -/
inductive GemMsg
  | realtimeChunk (mimeType data : List Char)
  | realtimeBlob (bytes : List Nat)
  | clientContent (parts : List (List Char)) (turnComplete : Bool)
deriving DecidableEq, Repr

structure GemState where
  status : Status
  session : Bool
  sent : List GemMsg
deriving DecidableEq, Repr

/-- A freshly constructed `GeminiClient`. -/
def initGem : GemState := ⟨Status.disconnected, false, []⟩

/-- `connect(model, config)` (lines 30–76).  The busy guard (lines 31–34)
emits a `log` and returns `false` without touching anything else.  Otherwise
`_status` goes to `"connecting"` and `client.live.connect` is awaited:
on resolution the session is stored (`onopen` has set `_status` to
`"connected"` and emitted `open`); on rejection an `error` is emitted and
`_status` reverts to `"disconnected"`. -/
def connectGem (connectOk : Bool) (s : GemState) : Bool × GemState × List CEvent :=
  if s.status = Status.connected ∨ s.status = Status.connecting then
    (false, s, [CEvent.logEv])
  else if connectOk then
    (true, { s with status := Status.connected, session := true },
     [CEvent.logEv, CEvent.openEv, CEvent.logEv])
  else
    (false, { s with status := Status.disconnected },
     [CEvent.logEv, CEvent.logEv, CEvent.errorEv "connect".toList])

/-- `disconnect()` (lines 211–220): when a session exists, close it, clear
it, force `_status` to `"disconnected"` and return `true`; otherwise return
`false` without touching anything. -/
def disconnectGem (s : GemState) : Bool × GemState :=
  if s.session then
    (true, { s with session := false, status := Status.disconnected })
  else
    (false, s)

/-- `sendRealtimeInput(chunks)` (lines 152–176): drop with a log when no
session exists, otherwise forward every chunk to the session. -/
def sendRealtimeInputGem (s : GemState) (chunks : List GemMsg) : GemState :=
  if s.session then { s with sent := s.sent ++ chunks } else s

/-- `endTurn()` (lines 196–209): drop with a log when no session exists,
otherwise send `sendClientContent({ turns: [], turnComplete: true })`. -/
def endTurnGem (s : GemState) : GemState :=
  if s.session then { s with sent := s.sent ++ [GemMsg.clientContent [] true] } else s

/-! ## `AudioStreamer` (audio-utils.ts, lines 1–68)

The playback queue.  Buffers are identified by the `Nat` tag under which they
were enqueued; `started` logs every buffer handed to `source.start()`, in
order.  `stop()` is the handler the session layer wires to the `interrupted`
canonical event (`client.on("interrupted", stopAudioStreamer)` in
use-live-api.ts). -/

structure ASState where
  queue : List Nat
  isPlaying : Bool
  started : List Nat
deriving DecidableEq, Repr

/-- `playQueue()`: when the queue is empty, clear `isPlaying` and return;
otherwise shift the head buffer, mark playing, and start it. -/
def playQueue (s : ASState) : ASState :=
  match s.queue with
  | [] => { s with isPlaying := false }
  | b :: rest => { queue := rest, isPlaying := true, started := s.started ++ [b] }

/-- `addPCM16(data)`: push the converted buffer, then kick `playQueue` when
not already playing. -/
def addPCM16 (s : ASState) (b : Nat) : ASState :=
  let s1 : ASState := { s with queue := s.queue ++ [b] }
  if s1.isPlaying then s1 else playQueue s1

/-- `stop()` (lines 60–63): clear the queue and the playing flag. -/
def stopAS (s : ASState) : ASState := { s with queue := [], isPlaying := false }

/-- External stimuli of the playback queue: a buffer arriving, a playing
source's `onended` callback, and the `interrupted` canonical event (wired to
`stop()`). -/
inductive ASEvent
  | add (b : Nat)
  | ended
  | interrupted
deriving DecidableEq, Repr

def asStep (s : ASState) : ASEvent → ASState
  | ASEvent.add b => addPCM16 s b
  | ASEvent.ended => playQueue s
  | ASEvent.interrupted => stopAS s

def asRun (s : ASState) (evs : List ASEvent) : ASState := evs.foldl asStep s

/-- The buffers enqueued by a stimulus sequence. -/
def asAdds (evs : List ASEvent) : List Nat :=
  evs.filterMap (fun e => match e with | ASEvent.add b => some b | _ => none)

/-! ## Gemini recording path (App.tsx, `startRecording` / `stopRecording`)

`audioChunkBufferRef` is the batch buffer, `sendIntervalRef` the 100 ms
flushing interval.  Frames are tagged by `Nat`; `sentApp` records what was
handed to the Gemini client, in order. -/

/-- What the App hands to the Gemini client while recording. -/
inductive AppMsg
  | blobFrame (f : Nat)
  | chunkBatch (fs : List Nat)
  | turnComplete
deriving DecidableEq, Repr

structure RecState where
  buffer : List Nat
  intervalActive : Bool
  sentApp : List AppMsg
deriving DecidableEq, Repr

def initRec : RecState := ⟨[], false, []⟩

/-- External stimuli of the recording path: `startRecording`, a capture
callback delivering one frame, an interval tick, and `stopRecording`. -/
inductive RecEvent
  | startRec
  | frame (f : Nat)
  | tick
  | stopRec
deriving DecidableEq, Repr

/-- One stimulus, translated from App.tsx (Gemini branch):
* `startRecording`: clears the buffer and installs the interval;
* the capture callback sends the frame immediately as a Blob via
  `sendRealtimeInput([blob])` — it does not append to the batch buffer;
* an interval tick flushes the buffer as one batch of chunks when non-empty;
* `stopRecording`: when the interval is installed, clear it, and when the
  buffer is also non-empty, flush it as one batch and then call `endTurn()`
  (`turnComplete`); with an empty buffer neither happens. -/
def recStep (s : RecState) : RecEvent → RecState
  | RecEvent.startRec => { s with buffer := [], intervalActive := true }
  | RecEvent.frame f => { s with sentApp := s.sentApp ++ [AppMsg.blobFrame f] }
  | RecEvent.tick =>
      if s.intervalActive ∧ s.buffer ≠ [] then
        { s with sentApp := s.sentApp ++ [AppMsg.chunkBatch s.buffer], buffer := [] }
      else s
  | RecEvent.stopRec =>
      if s.intervalActive then
        if s.buffer ≠ [] then
          { buffer := [], intervalActive := false,
            sentApp := s.sentApp ++ [AppMsg.chunkBatch s.buffer, AppMsg.turnComplete] }
        else { s with intervalActive := false }
      else s

def recRun (s : RecState) (evs : List RecEvent) : RecState := evs.foldl recStep s

/-! ## `UnifiedLiveClient` (unified-live-client.ts)

The unified session object: one nullable client slot per provider, the
`_currentProvider` binding, and the `_status` field.  The OpenAI slot holds
an `OpenAIRealtimeClient` (modelled above by `OAIState` / `disconnectOAI`).
The Gemini slot holds a `GenAILiveClient`, whose own source file is not
under `src/`; its `disconnect()` has the same observable contract as the
in-repo `GeminiClient.disconnect` (tear the session down and return `true`
iff a session exists), so the slot is modelled by `GemState` /
`disconnectGem`.  No claim below depends on that slot's teardown branch. -/

inductive Provider
  | gemini
  | openai
deriving DecidableEq, Repr

inductive UEvent
  | providerChanged (p : Provider)
deriving DecidableEq, Repr

structure UState where
  currentProvider : Provider
  status : Status
  geminiClient : Option GemState
  openaiClient : Option OAIState
deriving DecidableEq, Repr

/-- `UnifiedLiveClient.disconnect()`: read the active client
(`this._currentProvider === 'gemini' ? this.geminiClient : this.openaiClient`);
when present, call its `disconnect()`, set `_status` to `"disconnected"`
only when that call returned `true`, and return its result; when no active
client exists, return `false` and change nothing. -/
def disconnectU (s : UState) : Bool × UState :=
  match s.currentProvider with
  | Provider.gemini =>
      match s.geminiClient with
      | some g =>
          let r := disconnectGem g
          (r.1, { s with geminiClient := some r.2,
                         status := if r.1 then Status.disconnected else s.status })
      | none => (false, s)
  | Provider.openai =>
      match s.openaiClient with
      | some o =>
          let r := disconnectOAI o
          (r.1, { s with openaiClient := some r.2,
                         status := if r.1 then Status.disconnected else s.status })
      | none => (false, s)

/-- `switchProvider(provider)`: return immediately when `provider` equals
`_currentProvider`; otherwise `await this.disconnect()`, rebind
`_currentProvider`, and emit `providerChanged`.  The `Bool` result records
whether `disconnect()` was invoked. -/
def switchProvider (s : UState) (target : Provider) : UState × List UEvent × Bool :=
  if target = s.currentProvider then (s, [], false)
  else ({ (disconnectU s).2 with currentProvider := target },
        [UEvent.providerChanged target], true)

/-! # Theorems -/

/-! ## Base64 helper lemmas -/

theorem b64Index_b64Char : ∀ n, n < 64 → b64Index (b64Char n) = n := by decide

theorem b64Char_ne_pad : ∀ n, n < 64 → b64Char n ≠ '=' := by decide

theorem filter_map_cons_of_ne (c : Char) (hc : c ≠ '=') (s : List Char) :
    ((c :: s).filter (fun c => c ≠ '=')).map b64Index
      = b64Index c :: (s.filter (fun c => c ≠ '=')).map b64Index := by
  simp [List.filter_cons, hc]

theorem filter_map_cons_pad (s : List Char) :
    (('=' :: s).filter (fun c => c ≠ '=')).map b64Index
      = (s.filter (fun c => c ≠ '=')).map b64Index := by
  simp [List.filter_cons]

/-- Decoding inverts encoding on byte lists. -/
theorem base64_roundtrip : ∀ l : List Nat, (∀ b ∈ l, b < 256) → atobBytes (btoaBytes l) = l
  | [], _ => rfl
  | [a], h => by
      have ha : a < 256 := h a (by simp)
      have h1 : a / 4 < 64 := by omega
      have h2 : a % 4 * 16 < 64 := by omega
      rw [atobBytes, btoaBytes,
        filter_map_cons_of_ne _ (b64Char_ne_pad _ h1),
        filter_map_cons_of_ne _ (b64Char_ne_pad _ h2),
        filter_map_cons_pad, filter_map_cons_pad,
        b64Index_b64Char _ h1, b64Index_b64Char _ h2]
      simp only [List.filter_nil, List.map_nil, sextetsToBytes]
      have : a / 4 * 4 + a % 4 * 16 / 16 = a := by omega
      rw [this]
  | [a, b], h => by
      have ha : a < 256 := h a (by simp)
      have hb : b < 256 := h b (by simp)
      have h1 : a / 4 < 64 := by omega
      have h2 : a % 4 * 16 + b / 16 < 64 := by omega
      have h3 : b % 16 * 4 < 64 := by omega
      rw [atobBytes, btoaBytes,
        filter_map_cons_of_ne _ (b64Char_ne_pad _ h1),
        filter_map_cons_of_ne _ (b64Char_ne_pad _ h2),
        filter_map_cons_of_ne _ (b64Char_ne_pad _ h3),
        filter_map_cons_pad,
        b64Index_b64Char _ h1, b64Index_b64Char _ h2, b64Index_b64Char _ h3]
      simp only [List.filter_nil, List.map_nil, sextetsToBytes]
      have e1 : a / 4 * 4 + (a % 4 * 16 + b / 16) / 16 = a := by omega
      have e2 : (a % 4 * 16 + b / 16) % 16 * 16 + b % 16 * 4 / 4 = b := by omega
      rw [e1, e2]
  | a :: b :: c :: rest, h => by
      have ha : a < 256 := h a (by simp)
      have hb : b < 256 := h b (by simp)
      have hc : c < 256 := h c (by simp)
      have h1 : a / 4 < 64 := by omega
      have h2 : a % 4 * 16 + b / 16 < 64 := by omega
      have h3 : b % 16 * 4 + c / 64 < 64 := by omega
      have h4 : c % 64 < 64 := by omega
      have ih : atobBytes (btoaBytes rest) = rest :=
        base64_roundtrip rest (fun x hx => h x (by simp [hx]))
      rw [atobBytes] at ih ⊢
      rw [show btoaBytes (a :: b :: c :: rest)
            = b64Char (a / 4) :: b64Char (a % 4 * 16 + b / 16) ::
                b64Char (b % 16 * 4 + c / 64) :: b64Char (c % 64) :: btoaBytes rest
          from rfl,
        filter_map_cons_of_ne _ (b64Char_ne_pad _ h1),
        filter_map_cons_of_ne _ (b64Char_ne_pad _ h2),
        filter_map_cons_of_ne _ (b64Char_ne_pad _ h3),
        filter_map_cons_of_ne _ (b64Char_ne_pad _ h4),
        b64Index_b64Char _ h1, b64Index_b64Char _ h2,
        b64Index_b64Char _ h3, b64Index_b64Char _ h4,
        sextetsToBytes]
      rw [ih]
      have e1 : a / 4 * 4 + (a % 4 * 16 + b / 16) / 16 = a := by omega
      have e2 : (a % 4 * 16 + b / 16) % 16 * 16 + (b % 16 * 4 + c / 64) / 4 = b := by omega
      have e3 : (b % 16 * 4 + c / 64) % 4 * 64 + c % 64 = c := by omega
      rw [e1, e2, e3]

/-! ## Claims -/

/-- Claim C10: for every byte buffer `b`, decoding the base64 encoding of
`b` returns a buffer byte-for-byte identical to `b`
(`base64ToArrayBuffer ∘ arrayBufferToBase64 = id`), so audio payloads
carried inside JSON survive the encode/decode round trip unchanged. -/
theorem C10_base64_encode_decode_id (l : List Nat) (h : ∀ b ∈ l, b < 256) :
    atobBytes (btoaBytes l) = l :=
  base64_roundtrip l h

theorem C10_base64_encode_decode_id_witness :
    (∀ b ∈ [0, 61, 128, 255, 7], b < 256) ∧
      atobBytes (btoaBytes [0, 61, 128, 255, 7]) = [0, 61, 128, 255, 7] :=
  ⟨by decide, C10_base64_encode_decode_id [0, 61, 128, 255, 7] (by decide)⟩

/-- Claim C1: the claim says a WebRTC connect attempt in which credential
issuance or any later handshake step fails returns a failure result, ends
`Disconnected`, emits exactly one `error` event, and leaves no peer
connection open.  The code diverges: a credential-issuance failure is
swallowed by `getEphemeralKey`'s fallback to the raw API key, so the attempt
proceeds and succeeds; and when the SDP exchange fails, the attempt does
return failure with status `Disconnected`, but zero `error` events are
emitted and the freshly created peer connection (with the data channel and
audio element) is left open. -/
theorem C1_connect_failure_divergence :
    (connectOAI ⟨false, true, true⟩ (initOAI ConnType.webrtc)).1 = true ∧
    (connectOAI ⟨false, true, true⟩ (initOAI ConnType.webrtc)).2.1.status = Status.connected ∧
    (connectOAI ⟨true, true, false⟩ (initOAI ConnType.webrtc)).1 = false ∧
    (connectOAI ⟨true, true, false⟩ (initOAI ConnType.webrtc)).2.1.status = Status.disconnected ∧
    (connectOAI ⟨true, true, false⟩ (initOAI ConnType.webrtc)).2.2 = [] ∧
    (connectOAI ⟨true, true, false⟩ (initOAI ConnType.webrtc)).2.1.pc = true := by
  decide

/-- Claim C2: a `connect()` call while the status is `Connecting` or
`Connected` returns the failure result and has no side effects: the state is
unchanged, the adapter connect path is not entered, and the outcome is
independent of the network environment (no network request is made) — for
both the Gemini client and the OpenAI client. -/
theorem C2_connect_busy_rejected (gs : GemState) (os : OAIState)
    (ok : Bool) (env : NetEnv)
    (hg : gs.status = Status.connecting ∨ gs.status = Status.connected)
    (ho : os.status = Status.connecting ∨ os.status = Status.connected) :
    connectGem ok gs = (false, gs, [CEvent.logEv]) ∧
    connectOAI env os = (false, os, []) := by
  constructor
  · unfold connectGem
    rcases hg with h | h <;> simp [h]
  · unfold connectOAI
    rcases ho with h | h <;> simp [h]

theorem C2_connect_busy_rejected_witness :
    ((⟨Status.connecting, false, []⟩ : GemState).status = Status.connecting ∨
      (⟨Status.connecting, false, []⟩ : GemState).status = Status.connected) ∧
    ({ initOAI ConnType.webrtc with status := Status.connected }.status = Status.connecting ∨
      { initOAI ConnType.webrtc with status := Status.connected }.status = Status.connected) ∧
    (connectGem true ⟨Status.connecting, false, []⟩
        = (false, ⟨Status.connecting, false, []⟩, [CEvent.logEv]) ∧
      connectOAI ⟨true, true, true⟩ { initOAI ConnType.webrtc with status := Status.connected }
        = (false, { initOAI ConnType.webrtc with status := Status.connected }, [])) :=
  ⟨by decide, by decide,
    C2_connect_busy_rejected _ _ true ⟨true, true, true⟩ (by decide) (by decide)⟩

/-- Claim C3 counterexample: the claim says the second of two consecutive
`disconnect()` calls returns the failure-signal (`false`).  On the OpenAI
adapter, after a successful WebRTC connect and one disconnect, a second
`disconnect()` still returns `true`. -/
theorem C3_second_disconnect_returns_true :
    (disconnectOAI
        (disconnectOAI (connectOAI ⟨true, true, true⟩ (initOAI ConnType.webrtc)).2.1).2).1
      ≠ false := by
  decide

/-- Claim C3 (amended): `disconnect()` is idempotent for both adapters:
calling it twice in a row performs at most one teardown and the second call
leaves the state unchanged.  For the Gemini client the teardown happens
exactly when a session exists (then status is forced to `Disconnected`),
otherwise the call is a no-op returning the failure-signal `false`, and the
second of two consecutive calls always returns `false`.  The OpenAI client's
`disconnect()` forces `Disconnected` from any state and always returns
`true` — including the harmless no-op second call. -/
theorem C3_disconnect_idempotent (gs : GemState) (os : OAIState) :
    ((disconnectGem (disconnectGem gs).2).2 = (disconnectGem gs).2 ∧
      (disconnectGem (disconnectGem gs).2).1 = false ∧
      (gs.session = true →
        (disconnectGem gs).1 = true ∧ (disconnectGem gs).2.status = Status.disconnected) ∧
      (gs.session = false → disconnectGem gs = (false, gs))) ∧
    ((disconnectOAI os).1 = true ∧
      (disconnectOAI os).2.status = Status.disconnected ∧
      disconnectOAI (disconnectOAI os).2 = disconnectOAI os) := by
  constructor
  · unfold disconnectGem
    cases h : gs.session <;> simp [h]
  · unfold disconnectOAI
    simp

theorem C3_disconnect_idempotent_witness :
    (disconnectGem (disconnectGem ⟨Status.connected, true, []⟩).2).2
        = (disconnectGem ⟨Status.connected, true, []⟩).2 ∧
    (disconnectGem (disconnectGem ⟨Status.connected, true, []⟩).2).1 = false ∧
    (disconnectGem ⟨Status.connected, true, []⟩).1 = true ∧
    (disconnectGem ⟨Status.connected, true, []⟩).2.status = Status.disconnected ∧
    (disconnectOAI (initOAI ConnType.webrtc)).1 = true ∧
    (disconnectOAI (initOAI ConnType.webrtc)).2.status = Status.disconnected ∧
    disconnectOAI (disconnectOAI (initOAI ConnType.webrtc)).2
      = disconnectOAI (initOAI ConnType.webrtc) :=
  ⟨(C3_disconnect_idempotent ⟨Status.connected, true, []⟩ (initOAI ConnType.webrtc)).1.1,
   (C3_disconnect_idempotent ⟨Status.connected, true, []⟩ (initOAI ConnType.webrtc)).1.2.1,
   ((C3_disconnect_idempotent ⟨Status.connected, true, []⟩ (initOAI ConnType.webrtc)).1.2.2.1 rfl).1,
   ((C3_disconnect_idempotent ⟨Status.connected, true, []⟩ (initOAI ConnType.webrtc)).1.2.2.1 rfl).2,
   (C3_disconnect_idempotent ⟨Status.connected, true, []⟩ (initOAI ConnType.webrtc)).2.1,
   (C3_disconnect_idempotent ⟨Status.connected, true, []⟩ (initOAI ConnType.webrtc)).2.2.1,
   (C3_disconnect_idempotent ⟨Status.connected, true, []⟩ (initOAI ConnType.webrtc)).2.2.2⟩

/-- A single playback-queue step can only start a buffer that was already
started, was already queued, or was added by the step itself. -/
theorem asStep_started_mem (s : ASState) (e : ASEvent) (b : Nat)
    (h : b ∈ (asStep s e).started) :
    b ∈ s.started ∨ b ∈ s.queue ∨ ∃ f, e = ASEvent.add f ∧ b = f := by
  cases e with
  | add f =>
      unfold asStep addPCM16 at h
      by_cases hp : s.isPlaying
      · simp [hp] at h
        exact Or.inl h
      · cases hq : s.queue with
        | nil =>
            simp [hp, hq, playQueue] at h
            rcases h with h | h
            · exact Or.inl h
            · exact Or.inr (Or.inr ⟨f, rfl, h⟩)
        | cons x rest =>
            simp [hp, hq, playQueue] at h
            rcases h with h | h
            · exact Or.inl h
            · exact Or.inr (Or.inl (by simp [hq, h]))
  | ended =>
      unfold asStep playQueue at h
      cases hq : s.queue with
      | nil => simp [hq] at h; exact Or.inl h
      | cons x rest =>
          simp [hq] at h
          rcases h with h | h
          · exact Or.inl h
          · exact Or.inr (Or.inl (by simp [hq, h]))
  | interrupted =>
      unfold asStep stopAS at h
      exact Or.inl h

/-- A single playback-queue step can only queue a buffer that was already
queued or was added by the step itself. -/
theorem asStep_queue_mem (s : ASState) (e : ASEvent) (b : Nat)
    (h : b ∈ (asStep s e).queue) :
    b ∈ s.queue ∨ ∃ f, e = ASEvent.add f ∧ b = f := by
  cases e with
  | add f =>
      unfold asStep addPCM16 at h
      by_cases hp : s.isPlaying
      · simp [hp] at h
        rcases h with h | h
        · exact Or.inl h
        · exact Or.inr ⟨f, rfl, h⟩
      · cases hq : s.queue with
        | nil =>
            simp [hp, hq, playQueue] at h
        | cons x rest =>
            simp [hp, hq, playQueue] at h
            rcases h with h | h
            · exact Or.inl (by simp [hq, h])
            · exact Or.inr ⟨f, rfl, h⟩
  | ended =>
      unfold asStep playQueue at h
      cases hq : s.queue with
      | nil => simp [hq] at h
      | cons x rest =>
          simp [hq] at h
          exact Or.inl (by simp [hq, h])
  | interrupted =>
      unfold asStep stopAS at h
      simp at h

theorem mem_asAdds_tail (e : ASEvent) (evs : List ASEvent) (b : Nat)
    (h : b ∈ asAdds evs) : b ∈ asAdds (e :: evs) := by
  cases e <;> simp [asAdds, List.filterMap_cons] at h ⊢ <;> simp [h]

theorem mem_asAdds_head (evs : List ASEvent) (b : Nat) :
    b ∈ asAdds (ASEvent.add b :: evs) := by
  simp [asAdds, List.filterMap_cons]

/-- Every buffer started during a run was already started, already queued,
or added during the run. -/
theorem asRun_started_mem : ∀ (evs : List ASEvent) (s : ASState) (b : Nat),
    b ∈ (asRun s evs).started → b ∈ s.started ∨ b ∈ s.queue ∨ b ∈ asAdds evs
  | [], s, b, h => Or.inl (by simpa [asRun] using h)
  | e :: evs, s, b, h => by
      have h1 : b ∈ (asRun (asStep s e) evs).started := by
        simpa [asRun] using h
      rcases asRun_started_mem evs (asStep s e) b h1 with h2 | h2 | h2
      · rcases asStep_started_mem s e b h2 with h3 | h3 | ⟨f, he, hb⟩
        · exact Or.inl h3
        · exact Or.inr (Or.inl h3)
        · subst he; subst hb
          exact Or.inr (Or.inr (mem_asAdds_head evs b))
      · rcases asStep_queue_mem s e b h2 with h3 | ⟨f, he, hb⟩
        · exact Or.inr (Or.inl h3)
        · subst he; subst hb
          exact Or.inr (Or.inr (mem_asAdds_head evs b))
      · exact Or.inr (Or.inr (mem_asAdds_tail e evs b h2))

/-- Claim C4: delivering an `interrupted` canonical event (wired to
`AudioStreamer.stop`) empties the playback queue of all
queued-but-not-yet-playing buffers, and no buffer that was merely queued
before the interruption is ever started afterwards: whatever stimuli follow,
every buffer started after the interruption was either already started
before it or was freshly enqueued after it. -/
theorem C4_interrupted_clears_playback (s : ASState) (evs : List ASEvent) (b : Nat)
    (h : b ∈ (asRun (asStep s ASEvent.interrupted) evs).started) :
    (asStep s ASEvent.interrupted).queue = [] ∧
    (b ∈ s.started ∨ b ∈ asAdds evs) := by
  refine ⟨rfl, ?_⟩
  have h1 := asRun_started_mem evs (asStep s ASEvent.interrupted) b h
  simpa [asStep, stopAS] using h1

theorem C4_interrupted_clears_playback_witness :
    (1 ∈ (asRun (asStep ⟨[2, 3], true, [1]⟩ ASEvent.interrupted)
        [ASEvent.ended, ASEvent.ended]).started) ∧
    ((asStep ⟨[2, 3], true, [1]⟩ ASEvent.interrupted).queue = [] ∧
      (1 ∈ (⟨[2, 3], true, [1]⟩ : ASState).started
        ∨ 1 ∈ asAdds [ASEvent.ended, ASEvent.ended])) :=
  ⟨by decide,
    C4_interrupted_clears_playback ⟨[2, 3], true, [1]⟩
      [ASEvent.ended, ASEvent.ended] 1 (by decide)⟩

/-- A recording step never puts anything into an empty batch buffer. -/
theorem recStep_buffer_nil (s : RecState) (e : RecEvent) (h : s.buffer = []) :
    (recStep s e).buffer = [] := by
  cases e with
  | startRec => simp [recStep]
  | frame f => simp [recStep, h]
  | tick => simp [recStep, h]
  | stopRec =>
      simp only [recStep, h]
      split <;> simp [h]

/-- The batch buffer stays empty along every run: the capture callback sends
frames immediately instead of buffering them. -/
theorem recRun_buffer_nil : ∀ (evs : List RecEvent) (s : RecState),
    s.buffer = [] → (recRun s evs).buffer = []
  | [], s, h => by simpa [recRun] using h
  | e :: evs, s, h => by
      have h1 := recStep_buffer_nil s e h
      simpa [recRun] using recRun_buffer_nil evs (recStep s e) h1

/-- Claim C5 counterexample: the claim says an end-of-turn signal is sent
after the final flush, in particular when the captured frame count is not a
multiple of the batch window.  Recording three frames and stopping
(`startRecording`, three capture callbacks, `stopRecording`) sends no
`turnComplete` at all: the capture callback forwards each frame immediately
as a Blob and never fills the batch buffer, so `stopRecording` skips both
the flush and `endTurn()`. -/
theorem C5_no_endTurn_on_stop :
    AppMsg.turnComplete ∉ (recRun initRec
      [RecEvent.startRec, RecEvent.frame 1, RecEvent.frame 2, RecEvent.frame 3,
        RecEvent.stopRec]).sentApp := by
  decide

/-- Claim C5 (amended): on the Gemini batching path, when the flushing
interval is active, `stopRecording` leaves the batch buffer empty and sends
— in order, with nothing in between — the remaining buffered chunks as one
batch followed by the end-of-turn signal exactly when the buffer is
non-empty, and sends neither otherwise; and because the capture callback
forwards each frame immediately as a Blob instead of buffering it, the batch
buffer is empty in every reachable recording run, so the final flush and the
end-of-turn signal never actually occur. -/
theorem C5_stop_flush_before_endTurn (s : RecState) (evs : List RecEvent)
    (h : s.intervalActive = true) :
    (recStep s RecEvent.stopRec).buffer = [] ∧
    (recStep s RecEvent.stopRec).sentApp
        = s.sentApp ++ (if s.buffer = [] then []
            else [AppMsg.chunkBatch s.buffer, AppMsg.turnComplete]) ∧
    (recRun initRec evs).buffer = [] := by
  refine ⟨?_, ?_, recRun_buffer_nil evs initRec rfl⟩
  · by_cases hb : s.buffer = [] <;> simp [recStep, h, hb]
  · by_cases hb : s.buffer = [] <;> simp [recStep, h, hb]

theorem C5_stop_flush_before_endTurn_witness :
    ((⟨[5, 6], true, []⟩ : RecState).intervalActive = true) ∧
    ((recStep ⟨[5, 6], true, []⟩ RecEvent.stopRec).buffer = [] ∧
      (recStep ⟨[5, 6], true, []⟩ RecEvent.stopRec).sentApp
          = (⟨[5, 6], true, []⟩ : RecState).sentApp
            ++ (if (⟨[5, 6], true, []⟩ : RecState).buffer = [] then []
              else [AppMsg.chunkBatch (⟨[5, 6], true, []⟩ : RecState).buffer,
                AppMsg.turnComplete]) ∧
      (recRun initRec [RecEvent.startRec, RecEvent.frame 1, RecEvent.stopRec]).buffer
        = []) :=
  ⟨rfl,
    C5_stop_flush_before_endTurn ⟨[5, 6], true, []⟩
      [RecEvent.startRec, RecEvent.frame 1, RecEvent.stopRec] rfl⟩

/-- Claim C6: for every text string, `sendText` on the message-stream
(websocket) adapter with the socket open transmits exactly one
`conversation.item.create` message carrying that text followed by exactly
one `response.create`, in that order, with no other messages in between
(and nothing over the data channel). -/
theorem C6_sendText_item_then_response (s : OAIState) (t : List Char)
    (hct : s.connectionType = ConnType.websocket)
    (hws : s.ws = true) (hopen : s.wsOpen = true) :
    (sendTextOAI s t).wsSent
        = s.wsSent ++ [OutMsg.conversationItemCreate t, OutMsg.responseCreate] ∧
    (sendTextOAI s t).dcSent = s.dcSent := by
  unfold sendTextOAI sendOAI
  simp [hct, hws, hopen]

theorem C6_sendText_item_then_response_witness :
    ({ initOAI ConnType.websocket with
        status := Status.connected, ws := true, wsOpen := true }.connectionType
      = ConnType.websocket) ∧
    ({ initOAI ConnType.websocket with
        status := Status.connected, ws := true, wsOpen := true }.ws = true) ∧
    ({ initOAI ConnType.websocket with
        status := Status.connected, ws := true, wsOpen := true }.wsOpen = true) ∧
    ((sendTextOAI { initOAI ConnType.websocket with
          status := Status.connected, ws := true, wsOpen := true } "hello".toList).wsSent
        = { initOAI ConnType.websocket with
            status := Status.connected, ws := true, wsOpen := true }.wsSent
          ++ [OutMsg.conversationItemCreate "hello".toList, OutMsg.responseCreate] ∧
      (sendTextOAI { initOAI ConnType.websocket with
          status := Status.connected, ws := true, wsOpen := true } "hello".toList).dcSent
        = { initOAI ConnType.websocket with
            status := Status.connected, ws := true, wsOpen := true }.dcSent) :=
  ⟨rfl, rfl, rfl,
    C6_sendText_item_then_response _ "hello".toList rfl rfl rfl⟩

/-- Claim C7: for every inbound message handled by the message-stream
(websocket) adapter, the emitted canonical events are exactly those of the
specified mapping: `session.created` / `session.updated` emit nothing;
`response.audio.delta` with a (truthy) base64 payload emits one `audio`
event carrying the decoded byte buffer; `response.text.delta` /
`response.text.done` emit one `content` event; `response.done` emits
`turncomplete`; `response.cancelled` emits `interrupted`; `error` emits
`error`; and a message with any other tag is not forwarded as any canonical
event. -/
theorem C7_handleMessage_mapping (d : List Char) (hd : d ≠ [])
    (t dl e : Option (List Char)) (tg : List Char) :
    handleMessageOAI ConnType.websocket InMsg.sessionCreated = [] ∧
    handleMessageOAI ConnType.websocket InMsg.sessionUpdated = [] ∧
    handleMessageOAI ConnType.websocket (InMsg.audioDelta (some d))
        = [CEvent.audioEv (atobBytes d)] ∧
    handleMessageOAI ConnType.websocket (InMsg.textDelta t dl)
        = [CEvent.contentEv (jsOr t dl)] ∧
    handleMessageOAI ConnType.websocket (InMsg.textDone t dl)
        = [CEvent.contentEv (jsOr t dl)] ∧
    handleMessageOAI ConnType.websocket InMsg.responseDone = [CEvent.turncompleteEv] ∧
    handleMessageOAI ConnType.websocket InMsg.responseCancelled = [CEvent.interruptedEv] ∧
    handleMessageOAI ConnType.websocket (InMsg.errorMsg e)
        = [CEvent.errorEv ((jsOr e (some "Unknown error".toList)).getD [])] ∧
    handleMessageOAI ConnType.websocket (InMsg.otherMsg tg) = [] := by
  refine ⟨rfl, rfl, ?_, rfl, rfl, rfl, rfl, rfl, rfl⟩
  simp [handleMessageOAI, hd]

theorem C7_handleMessage_mapping_witness :
    ("QQ".toList ≠ ([] : List Char)) ∧
    (handleMessageOAI ConnType.websocket InMsg.sessionCreated = [] ∧
      handleMessageOAI ConnType.websocket InMsg.sessionUpdated = [] ∧
      handleMessageOAI ConnType.websocket (InMsg.audioDelta (some "QQ".toList))
          = [CEvent.audioEv (atobBytes "QQ".toList)] ∧
      handleMessageOAI ConnType.websocket
          (InMsg.textDelta (some "hi".toList) none)
          = [CEvent.contentEv (jsOr (some "hi".toList) none)] ∧
      handleMessageOAI ConnType.websocket
          (InMsg.textDone (some "hi".toList) none)
          = [CEvent.contentEv (jsOr (some "hi".toList) none)] ∧
      handleMessageOAI ConnType.websocket InMsg.responseDone = [CEvent.turncompleteEv] ∧
      handleMessageOAI ConnType.websocket InMsg.responseCancelled
          = [CEvent.interruptedEv] ∧
      handleMessageOAI ConnType.websocket (InMsg.errorMsg none)
          = [CEvent.errorEv ((jsOr none (some "Unknown error".toList)).getD [])] ∧
      handleMessageOAI ConnType.websocket (InMsg.otherMsg "rate_limits.updated".toList)
          = []) :=
  ⟨by decide,
    C7_handleMessage_mapping "QQ".toList (by decide)
      (some "hi".toList) none none "rate_limits.updated".toList⟩

/-- Claim C8: for every audio buffer, calling `sendAudio` on the adapter
while it is in media-track (WebRTC) mode is a no-op: the state is returned
unchanged, so nothing is appended to the data channel or the websocket send
log and no field of the adapter changes. -/
theorem C8_sendAudio_webrtc_noop (s : OAIState) (bytes : List Nat)
    (h : s.connectionType = ConnType.webrtc) :
    sendAudioOAI s bytes = s := by
  unfold sendAudioOAI
  rw [h]

theorem C8_sendAudio_webrtc_noop_witness :
    ((initOAI ConnType.webrtc).connectionType = ConnType.webrtc) ∧
    sendAudioOAI (initOAI ConnType.webrtc) [1, 2, 3] = initOAI ConnType.webrtc :=
  ⟨rfl, C8_sendAudio_webrtc_noop (initOAI ConnType.webrtc) [1, 2, 3] rfl⟩

/-- Claim C9: for every provider `P`, calling `switchProvider(P)` when the
current provider is already `P` performs no teardown (`disconnect()` is not
invoked — the flag is `false`), leaves the active adapter binding, both
client slots and all session state unchanged, and emits no `providerChanged`
notification. -/
theorem C9_switchProvider_same_noop (s : UState) (t : Provider)
    (h : t = s.currentProvider) :
    switchProvider s t = (s, [], false) := by
  simp [switchProvider, h]

theorem C9_switchProvider_same_noop_witness :
    (Provider.gemini
      = (⟨Provider.gemini, Status.connected, some ⟨Status.connected, true, []⟩,
          some (initOAI ConnType.webrtc)⟩ : UState).currentProvider) ∧
    switchProvider
        ⟨Provider.gemini, Status.connected, some ⟨Status.connected, true, []⟩,
          some (initOAI ConnType.webrtc)⟩ Provider.gemini
      = (⟨Provider.gemini, Status.connected, some ⟨Status.connected, true, []⟩,
          some (initOAI ConnType.webrtc)⟩, [], false) :=
  ⟨rfl,
    C9_switchProvider_same_noop
      ⟨Provider.gemini, Status.connected, some ⟨Status.connected, true, []⟩,
        some (initOAI ConnType.webrtc)⟩ Provider.gemini rfl⟩

end RVC
